import Mathlib

/-!
Shallow embedding of the blog-backend HTTP service (Express + Mongoose)
and proofs about its route handlers.

Source files embedded here:
  * `src/models/blog-model.js` — the `blogSchema` field validators
    (required / trim / maxlength) and the `timestamps: true` option.
  * `src/unnamed/part_001` (the blog router) — the six route handlers
    `GET /blogs`, `GET /blog/id/:id`, `PUT /blog/id/:id`,
    `DELETE /blog/id/:id`, `GET /blog/author`, `POST /blogs`.
  * `src/unnamed/part_000` together with `src/config/connect-db.js` —
    the `startServer` startup sequence.

The external document store is modelled as an in-memory association list
from id strings to records; a `storeFail` flag models a connectivity or
persistence failure raised by the store during the awaited operation
(the `catch` branch of each handler).  Time is passed in explicitly as a
natural-number clock `now`.
-/

namespace BlogBackend

/-! ## String utilities (JS `String.prototype.trim`) -/

/-- Model of JavaScript `s.trim()` on the character list: drop whitespace
from the front, then from the back.  `Char.isWhitespace` stands in for the
JS whitespace class (exact on ASCII input). -/
def trimChars (cs : List Char) : List Char :=
  (cs.dropWhile Char.isWhitespace).rdropWhile Char.isWhitespace

/-- Model of JavaScript `s.trim()` on strings. -/
def jsTrim (s : String) : String :=
  ⟨trimChars s.data⟩

/-- Hexadecimal digit test, as in the ObjectId format check. -/
def isHexChar (c : Char) : Bool :=
  c.isDigit || ('a' ≤ c && c ≤ 'f') || ('A' ≤ c && c ≤ 'F')

/-- Model of `mongoose.Types.ObjectId.isValid` on a string argument: a
24-character hexadecimal string, or any 12-character string (interpreted
as a 12-byte buffer by the bson library). -/
def isValidObjectId (s : String) : Bool :=
  (s.length == 24 && s.data.all isHexChar) || s.length == 12

/-! ## Data model (`src/models/blog-model.js`) -/

/-- A stored BlogPost document.  `blogSchema` declares `title`, `author`,
`description`; `timestamps: true` adds `createdAt` and `updatedAt`; `v` is
the Mongoose `__v` version key (the revision counter). -/
structure BlogRecord where
  title : String
  author : String
  description : String
  createdAt : Nat
  updatedAt : Nat
  v : Nat
deriving Repr, DecidableEq

/-- The document store: an association list from `_id` strings to records. -/
abbrev Store := List (String × BlogRecord)

/-- Find the record with the given id (`findById`). -/
def Store.lookup : Store → String → Option BlogRecord
  | [], _ => none
  | (k, r) :: rest, id => if k = id then some r else Store.lookup rest id

/-- Replace the record stored under `id` (the write half of
`findByIdAndUpdate`).  Ids are unique in a well-formed store, so mapping
over all entries replaces exactly the matching document. -/
def Store.set (db : Store) (id : String) (r : BlogRecord) : Store :=
  db.map (fun kv => if kv.1 = id then (kv.1, r) else kv)

/-- Remove the record stored under `id` (`findByIdAndDelete`). -/
def Store.erase (db : Store) (id : String) : Store :=
  db.filter (fun kv => kv.1 != id)

/-! ## Schema validation (`blogSchema`)

Mongoose applies the `trim` setter before validating, so `required`
(non-empty) and `maxlength` are checked on the trimmed value, and the
trimmed value is what gets stored. -/

/-- Validate and normalise a `title` value: trim, then `required` and
`maxlength: 100`.  Returns the stored value, or `none` on a
`ValidationError`. -/
def checkTitle (s : String) : Option String :=
  let t := jsTrim s
  if t = "" then none
  else if t.length ≤ 100 then some t else none

/-- Validate and normalise an `author` value: trim, then `required`. -/
def checkAuthor (s : String) : Option String :=
  let t := jsTrim s
  if t = "" then none else some t

/-- Validate and normalise a `description` value: trim, then `required`
and `maxlength: 1000`. -/
def checkDescription (s : String) : Option String :=
  let t := jsTrim s
  if t = "" then none
  else if t.length ≤ 1000 then some t else none

/-- The `data` object of a POST /blogs body; each schema field may be
absent. -/
structure CreatePayload where
  title : Option String
  author : Option String
  description : Option String
deriving Repr, DecidableEq

/-- Document validation performed by `blogModel.save()`: every required
field must be present and pass its validators.  Returns the stored
(trimmed) field values. -/
def validateCreate (p : CreatePayload) : Option (String × String × String) :=
  match p.title, p.author, p.description with
  | some ts, some au, some de =>
    match checkTitle ts, checkAuthor au, checkDescription de with
    | some t, some a, some d => some (t, a, d)
    | _, _, _ => none
  | _, _, _ => none

/-- The `data` object of a PUT /blog/id/:id body, restricted to the
schema's user fields (Mongoose strict mode discards unknown keys). -/
structure UpdatePayload where
  title : Option String
  author : Option String
  description : Option String
deriving Repr, DecidableEq

/-- Model of `Object.keys(updatedData).length === 0`. -/
def UpdatePayload.isEmpty (u : UpdatePayload) : Bool :=
  u.title.isNone && u.author.isNone && u.description.isNone

/-- Run one field's validator on an update path only when the path is
supplied (update validators with `runValidators: true` run on the paths
present in the update). -/
def validateUpdateField (check : String → Option String) :
    Option String → Option (Option String)
  | none => some none
  | some s =>
    match check s with
    | none => none
    | some t => some (some t)

/-- Cast and validate an update document (`runValidators: true`): each
supplied field is trimmed and checked; an absent field is left alone.
Returns the normalised update, or `none` on a `ValidationError`. -/
def validateUpdate (u : UpdatePayload) : Option UpdatePayload :=
  match validateUpdateField checkTitle u.title,
        validateUpdateField checkAuthor u.author,
        validateUpdateField checkDescription u.description with
  | some t, some a, some d => some ⟨t, a, d⟩
  | _, _, _ => none

/-- Apply a validated update to a stored document: supplied fields are
overwritten, `$inc: { __v: 1 }` bumps the revision counter, and
`timestamps: true` makes Mongoose set `updatedAt` to the current time.
`createdAt` and unsupplied fields are untouched. -/
def applyUpdate (r : BlogRecord) (u : UpdatePayload) (now : Nat) : BlogRecord :=
  { title := u.title.getD r.title
    author := u.author.getD r.author
    description := u.description.getD r.description
    createdAt := r.createdAt
    updatedAt := now
    v := r.v + 1 }

/-! ## Responses -/

/-- The JSON responses the handlers produce, with their envelope payloads. -/
inductive Response where
  | okBlog (message : String) (blog : BlogRecord)
  | okBlogs (message : String) (count : Nat) (blogs : List BlogRecord)
  | okMessage (message : String)
  | created (message : String) (blog : BlogRecord)
  | badRequest (error : String)
  | notFound (error : String)
  | serverError (error : String)
deriving Repr, DecidableEq

/-- The HTTP status code of a response. -/
def Response.status : Response → Nat
  | .okBlog _ _ => 200
  | .okBlogs _ _ _ => 200
  | .okMessage _ => 200
  | .created _ _ => 201
  | .badRequest _ => 400
  | .notFound _ => 404
  | .serverError _ => 500

/-! ## Sorting (`.sort({ createdAt: 1 })`) -/

/-- Insert a record into a list sorted by ascending `createdAt`. -/
def insertByCreated (r : BlogRecord) : List BlogRecord → List BlogRecord
  | [] => [r]
  | x :: xs =>
    if r.createdAt ≤ x.createdAt then r :: x :: xs
    else x :: insertByCreated r xs

/-- Sort records by ascending creation time, as `.sort({ createdAt: 1 })`
does. -/
def sortByCreatedAt : List BlogRecord → List BlogRecord
  | [] => []
  | x :: xs => insertByCreated x (sortByCreatedAt xs)

/-! ## Regex author matching (`$regex` with option `i`)

The author search sends the raw query-string value as a `$regex` pattern.
The model below covers patterns built from literal characters and the `.`
wildcard, which is what the claims exercise; the case-insensitive option
is modelled with `Char.toLower` (exact on ASCII). -/

/-- Does the pattern match a prefix of the text?  A `.` in the pattern
matches any character except a line terminator; any other character
matches itself case-insensitively. -/
def regexMatchAt : List Char → List Char → Bool
  | [], _ => true
  | _ :: _, [] => false
  | p :: ps, c :: cs =>
    ((p == '.' && c != '\n' && c != '\r') || p.toLower == c.toLower) &&
      regexMatchAt ps cs

/-- Does the pattern match anywhere in the text (an unanchored `$regex`
test)? -/
def regexSearch (pat : List Char) : List Char → Bool
  | [] => regexMatchAt pat []
  | c :: cs => regexMatchAt pat (c :: cs) || regexSearch pat cs

/-- The store-side test `author: { $regex: name, $options: 'i' }`. -/
def regexTestCI (name author : String) : Bool :=
  regexSearch name.data author.data

/-- Characters that are metacharacters in a JS regular expression. -/
def regexMetaChars : List Char :=
  ['.', '^', '$', '*', '+', '?', '(', ')', '[', ']', '\x7b', '\x7d', '|', '\\']

/-- A name is regex-meta-free when it contains no regex metacharacter. -/
def noRegexMeta (s : String) : Bool :=
  s.data.all (fun c => !(regexMetaChars.contains c))

/-- Does `n` occur at the start of `s`? (spec-side helper) -/
def listStartsWith : List Char → List Char → Bool
  | [], _ => true
  | _ :: _, [] => false
  | a :: as', b :: bs => a == b && listStartsWith as' bs

/-- Does `n` occur contiguously anywhere in `s`? (spec-side helper) -/
def containsSub (n : List Char) : List Char → Bool
  | [] => listStartsWith n []
  | c :: cs => listStartsWith n (c :: cs) || containsSub n cs

/-- Modelled from the spec's words: `author` contains the queried name as
a case-insensitive substring.  Used only to compare the specified matching
semantics with the `$regex` test the code performs. -/
def ciContains (n s : String) : Bool :=
  containsSub (n.data.map Char.toLower) (s.data.map Char.toLower)

/-! ## Route handlers (`src/unnamed/part_001`) -/

/-- Handler of `GET /blogs`: fetch all documents sorted by ascending
creation time; a store failure is caught and mapped to 500. -/
def getBlogs (db : Store) (storeFail : Bool) : Response :=
  if storeFail then Response.serverError "StoreError"
  else
    let allBlogs := sortByCreatedAt (db.map Prod.snd)
    Response.okBlogs "Blogs retrieved successfully" allBlogs.length allBlogs

/-- Handler of `GET /blog/id/:id`: reject a malformed id with 400 before
touching the store; 404 when no document matches; 500 when the awaited
`findById` fails. -/
def getBlogById (id : String) (db : Store) (storeFail : Bool) : Response :=
  if !isValidObjectId id then Response.badRequest "Invalid blog ID format"
  else if storeFail then Response.serverError "StoreError"
  else
    match Store.lookup db id with
    | none => Response.notFound "Blog not found"
    | some b => Response.okBlog "Blog found" b

/-- Handler of `PUT /blog/id/:id`: malformed id → 400; missing or empty
`data` → 400; then `findByIdAndUpdate` with `runValidators: true` and
`new: true` — a validation error or store failure raised by the awaited
call lands in the catch (500); a null result → 404; otherwise the updated
document is stored and returned. -/
def putBlogById (id : String) (body : Option UpdatePayload) (db : Store)
    (now : Nat) (storeFail : Bool) : Response × Store :=
  if !isValidObjectId id then (Response.badRequest "Invalid blog ID format", db)
  else
    match body with
    | none => (Response.badRequest "No update data provided", db)
    | some u =>
      if u.isEmpty then (Response.badRequest "No update data provided", db)
      else
        match validateUpdate u with
        | none => (Response.serverError "ValidationError", db)
        | some u' =>
          if storeFail then (Response.serverError "StoreError", db)
          else
            match Store.lookup db id with
            | none => (Response.notFound "Blog not found", db)
            | some r =>
              let r' := applyUpdate r u' now
              (Response.okBlog "Blog updated successfully" r', Store.set db id r')

/-- Handler of `DELETE /blog/id/:id`: malformed id → 400; 404 when no
document matches; otherwise the document is removed. -/
def deleteBlogById (id : String) (db : Store) (storeFail : Bool) :
    Response × Store :=
  if !isValidObjectId id then (Response.badRequest "Invalid blog ID format", db)
  else if storeFail then (Response.serverError "StoreError", db)
  else
    match Store.lookup db id with
    | none => (Response.notFound "Blog not found", db)
    | some _ => (Response.okMessage "Blog deleted successfully", Store.erase db id)

/-- Handler of `GET /blog/author`: the `name` query parameter is passed to
the store as a `$regex` pattern with no validation at all.  An absent
parameter still issues the query; the store rejects a non-string `$regex`,
which the catch maps to 500.  An empty result is mapped to 404. -/
def getBlogAuthor (name : Option String) (db : Store) (storeFail : Bool) :
    Response :=
  if storeFail then Response.serverError "StoreError"
  else
    match name with
    | none => Response.serverError "StoreError"
    | some n =>
      let allBlogs :=
        sortByCreatedAt ((db.map Prod.snd).filter (fun r => regexTestCI n r.author))
      if allBlogs.isEmpty then Response.notFound "Blog not found"
      else
        Response.okBlogs "Blogs successfully retrieved by author"
          allBlogs.length allBlogs

/-- Handler of `POST /blogs`: build a document from `req.body.data` and
`save()` it.  The single catch maps EVERY error raised during the save —
a schema `ValidationError` and a store failure alike — to status 400.
On success the saved document is returned with 201; `__v` starts at 0 and
both timestamps are the creation time. -/
def postBlogs (body : Option CreatePayload) (db : Store) (newId : String)
    (now : Nat) (storeFail : Bool) : Response × Store :=
  match body with
  | none => (Response.badRequest "ValidationError", db)
  | some p =>
    match validateCreate p with
    | none => (Response.badRequest "ValidationError", db)
    | some (t, a, d) =>
      if storeFail then (Response.badRequest "StoreError", db)
      else
        let r : BlogRecord :=
          { title := t, author := a, description := d
            createdAt := now, updatedAt := now, v := 0 }
        (Response.created "Blog created successfully" r, db ++ [(newId, r)])

/-! ## Startup sequence (`src/unnamed/part_000`, `src/config/connect-db.js`) -/

/-- The observable outcome of `startServer`. -/
inductive ServerState where
  | exited (code : Nat)
  | listening (port : Nat)
deriving Repr, DecidableEq

/-- Model of `connectDatabase` in `src/config/connect-db.js`: it awaits
`mongoose.connect` and returns `true` on success and `false` on failure
(the outcome of the external connection attempt is the argument). -/
def connectDatabase (connectOk : Bool) : Bool :=
  connectOk

/-- Model of `startServer`: connect first; on failure `process.exit(1)`;
otherwise listen on `process.env.PORT || 3000`. -/
def startServer (connectOk : Bool) (envPort : Option Nat) : ServerState :=
  if !connectDatabase connectOk then ServerState.exited 1
  else ServerState.listening (envPort.getD 3000)

/-! ## The schema invariant -/

/-- The invariant of a stored BlogPost document: title, author and
description are non-empty after trimming, the title has at most 100
characters, and the description at most 1000. -/
def validRecord (r : BlogRecord) : Prop :=
  jsTrim r.title ≠ "" ∧ r.title.length ≤ 100 ∧
    jsTrim r.author ≠ "" ∧ jsTrim r.description ≠ "" ∧
    r.description.length ≤ 1000

/-- Every record in the store satisfies the schema invariant. -/
def storeValid (db : Store) : Prop :=
  ∀ kv ∈ db, validRecord kv.2

/-! ## Helper lemmas: trimming -/

theorem dropWhile_cons_self {α : Type} {p : α → Bool} {a : α} {w : List α}
    (h : List.dropWhile p (a :: w) = a :: w) : p a = false := by
  by_contra hpa
  rw [Bool.not_eq_false] at hpa
  rw [List.dropWhile_cons, if_pos hpa] at h
  have hlen : (List.dropWhile p w).length ≤ w.length :=
    List.Sublist.length_le (List.dropWhile_sublist p)
  rw [h] at hlen
  simp at hlen

theorem trimChars_idem (cs : List Char) :
    trimChars (trimChars cs) = trimChars cs := by
  unfold trimChars
  set p := Char.isWhitespace with hp
  set y := cs.dropWhile p with hy
  have hyy : y.dropWhile p = y := by
    rw [hy]; exact List.dropWhile_idempotent p cs
  have h1 : (y.rdropWhile p).dropWhile p = y.rdropWhile p := by
    obtain ⟨t, ht⟩ := List.rdropWhile_prefix p y
    cases hz : y.rdropWhile p with
    | nil => simp [List.dropWhile]
    | cons a zs =>
      have hya : y = a :: (zs ++ t) := by rw [← ht, hz]; simp
      have ha : p a = false := by
        apply dropWhile_cons_self (w := zs ++ t)
        rw [← hya]; exact hyy
      rw [List.dropWhile_cons, ha]
      simp
  rw [h1, List.rdropWhile_idempotent]

theorem jsTrim_idem (s : String) : jsTrim (jsTrim s) = jsTrim s :=
  congrArg String.mk (trimChars_idem s.data)

/-! ## Helper lemmas: field validators -/

theorem checkTitle_eq_some {s t : String} (h : checkTitle s = some t) :
    t = jsTrim s ∧ jsTrim t ≠ "" ∧ t.length ≤ 100 := by
  simp only [checkTitle] at h
  split at h
  · exact absurd h (by simp)
  · split at h
    · injection h with h'
      subst h'
      refine ⟨rfl, ?_, by assumption⟩
      rw [jsTrim_idem]
      assumption
    · exact absurd h (by simp)

theorem checkAuthor_eq_some {s t : String} (h : checkAuthor s = some t) :
    t = jsTrim s ∧ jsTrim t ≠ "" := by
  simp only [checkAuthor] at h
  split at h
  · exact absurd h (by simp)
  · injection h with h'
    subst h'
    refine ⟨rfl, ?_⟩
    rw [jsTrim_idem]
    assumption

theorem checkDescription_eq_some {s t : String} (h : checkDescription s = some t) :
    t = jsTrim s ∧ jsTrim t ≠ "" ∧ t.length ≤ 1000 := by
  simp only [checkDescription] at h
  split at h
  · exact absurd h (by simp)
  · split at h
    · injection h with h'
      subst h'
      refine ⟨rfl, ?_, by assumption⟩
      rw [jsTrim_idem]
      assumption
    · exact absurd h (by simp)

theorem validateCreate_eq_some {p : CreatePayload} {t a d : String}
    (h : validateCreate p = some (t, a, d)) :
    (∃ ts, p.title = some ts ∧ checkTitle ts = some t) ∧
    (∃ au, p.author = some au ∧ checkAuthor au = some a) ∧
    (∃ de, p.description = some de ∧ checkDescription de = some d) := by
  unfold validateCreate at h
  split at h
  · split at h
    · injection h with h'
      injection h' with h1 h'
      injection h' with h2 h3
      subst h1; subst h2; subst h3
      refine ⟨⟨_, by assumption, by assumption⟩,
        ⟨_, by assumption, by assumption⟩, ⟨_, by assumption, by assumption⟩⟩
    · exact absurd h (by simp)
  · exact absurd h (by simp)

theorem validateUpdateField_eq_some {check : String → Option String}
    {o o' : Option String} (h : validateUpdateField check o = some o') :
    o' = none ∨ ∃ s t, o = some s ∧ check s = some t ∧ o' = some t := by
  cases o with
  | none =>
    simp only [validateUpdateField] at h
    injection h with h'
    exact Or.inl h'.symm
  | some s =>
    simp only [validateUpdateField] at h
    cases hc : check s with
    | none => rw [hc] at h; exact absurd h (by simp)
    | some t =>
      rw [hc] at h
      injection h with h'
      exact Or.inr ⟨s, t, rfl, hc, h'.symm⟩

theorem validateUpdate_eq_some {u u' : UpdatePayload}
    (h : validateUpdate u = some u') :
    validateUpdateField checkTitle u.title = some u'.title ∧
    validateUpdateField checkAuthor u.author = some u'.author ∧
    validateUpdateField checkDescription u.description = some u'.description := by
  unfold validateUpdate at h
  split at h
  · injection h with h'
    subst h'
    exact ⟨by assumption, by assumption, by assumption⟩
  · exact absurd h (by simp)

/-! ## Helper lemmas: the store -/

theorem Store.lookup_cons (k : String) (v : BlogRecord) (rest : Store)
    (id : String) :
    Store.lookup ((k, v) :: rest) id =
      if k = id then some v else Store.lookup rest id := rfl

theorem Store.set_cons (k : String) (v : BlogRecord) (rest : Store)
    (id : String) (r' : BlogRecord) :
    Store.set ((k, v) :: rest) id r' =
      (if k = id then (k, r') else (k, v)) :: Store.set rest id r' := rfl

theorem Store.lookup_set_self {db : Store} {id : String} {r : BlogRecord}
    (r' : BlogRecord) (h : Store.lookup db id = some r) :
    Store.lookup (Store.set db id r') id = some r' := by
  induction db with
  | nil => simp [Store.lookup] at h
  | cons kv rest ih =>
    obtain ⟨k, v⟩ := kv
    by_cases hk : k = id
    · rw [Store.set_cons, if_pos hk, Store.lookup_cons, if_pos hk]
    · rw [Store.set_cons, if_neg hk, Store.lookup_cons, if_neg hk]
      rw [Store.lookup_cons, if_neg hk] at h
      exact ih h

theorem Store.lookup_set_ne (db : Store) (id id' : String) (r' : BlogRecord)
    (h : id' ≠ id) :
    Store.lookup (Store.set db id r') id' = Store.lookup db id' := by
  induction db with
  | nil => simp [Store.set, Store.lookup]
  | cons kv rest ih =>
    obtain ⟨k, v⟩ := kv
    by_cases hk : k = id
    · have hne : k ≠ id' := by
        intro he
        exact h (he ▸ hk)
      rw [Store.set_cons, if_pos hk, Store.lookup_cons, Store.lookup_cons,
        if_neg hne, if_neg hne, ih]
    · rw [Store.set_cons, if_neg hk, Store.lookup_cons, Store.lookup_cons, ih]

theorem storeValid_set {db : Store} {id : String} {r' : BlogRecord}
    (h : storeValid db) (h' : validRecord r') :
    storeValid (Store.set db id r') := by
  intro kv hkv
  obtain ⟨x, hx, hfx⟩ := List.mem_map.mp hkv
  by_cases hxi : x.1 = id
  · simp only [hxi, if_pos] at hfx
    rw [← hfx]
    exact h'
  · simp only [hxi, if_neg, not_false_iff] at hfx
    rw [← hfx]
    exact h x hx

theorem storeValid_append {db : Store} (k : String) (r : BlogRecord)
    (h : storeValid db) (h' : validRecord r) :
    storeValid (db ++ [(k, r)]) := by
  intro x hx
  rcases List.mem_append.mp hx with hx' | hx'
  · exact h x hx'
  · rw [List.mem_singleton.mp hx']
    exact h'

/-! ## Helper lemmas: regex versus substring matching -/

theorem regexMatchAt_eq_startsWith (pat : List Char)
    (h : ∀ c ∈ pat, c ≠ '.') (s : List Char) :
    regexMatchAt pat s =
      listStartsWith (pat.map Char.toLower) (s.map Char.toLower) := by
  induction pat generalizing s with
  | nil => cases s <;> rfl
  | cons p ps ih =>
    cases s with
    | nil => rfl
    | cons c cs =>
      have hp : (p == '.') = false := by
        have := h p (by simp)
        simpa using this
      have ihcs := ih (fun c' hc' => h c' (by simp [hc'])) cs
      simp [regexMatchAt, listStartsWith, hp, ihcs]

theorem regexSearch_eq_containsSub (pat : List Char)
    (h : ∀ c ∈ pat, c ≠ '.') (s : List Char) :
    regexSearch pat s =
      containsSub (pat.map Char.toLower) (s.map Char.toLower) := by
  induction s with
  | nil =>
    have := regexMatchAt_eq_startsWith pat h []
    simpa [regexSearch, containsSub] using this
  | cons c cs ih =>
    have := regexMatchAt_eq_startsWith pat h (c :: cs)
    simp [regexSearch, containsSub, this, ih]

theorem noRegexMeta_no_dot {n : String} (h : noRegexMeta n = true) :
    ∀ c ∈ n.data, c ≠ '.' := by
  intro c hc hdot
  subst hdot
  unfold noRegexMeta at h
  rw [List.all_eq_true] at h
  have := h '.' hc
  simp [regexMetaChars] at this

theorem regexTestCI_eq_ciContains {n : String} (h : noRegexMeta n = true)
    (s : String) : regexTestCI n s = ciContains n s :=
  regexSearch_eq_containsSub n.data (noRegexMeta_no_dot h) s.data

/-! ## Helper lemmas: the invariant -/

theorem Store.lookup_mem {db : Store} {id : String} {r : BlogRecord}
    (h : Store.lookup db id = some r) : (id, r) ∈ db := by
  induction db with
  | nil => simp [Store.lookup] at h
  | cons kv rest ih =>
    obtain ⟨k, v⟩ := kv
    rw [Store.lookup_cons] at h
    by_cases hk : k = id
    · rw [if_pos hk] at h
      injection h with h'
      subst h'
      subst hk
      exact List.mem_cons_self _ _
    · rw [if_neg hk] at h
      exact List.mem_cons_of_mem _ (ih h)

theorem validateCreate_validRecord {p : CreatePayload} {t a d : String}
    (now : Nat) (h : validateCreate p = some (t, a, d)) :
    validRecord ⟨t, a, d, now, now, 0⟩ := by
  obtain ⟨⟨ts, _, ht⟩, ⟨au, _, ha⟩, ⟨de, _, hd⟩⟩ := validateCreate_eq_some h
  obtain ⟨_, ht1, ht2⟩ := checkTitle_eq_some ht
  obtain ⟨_, ha1⟩ := checkAuthor_eq_some ha
  obtain ⟨_, hd1, hd2⟩ := checkDescription_eq_some hd
  exact ⟨ht1, ht2, ha1, hd1, hd2⟩

theorem applyUpdate_validRecord {r : BlogRecord} {u u' : UpdatePayload}
    (now : Nat) (hr : validRecord r) (h : validateUpdate u = some u') :
    validRecord (applyUpdate r u' now) := by
  obtain ⟨ht, ha, hd⟩ := validateUpdate_eq_some h
  obtain ⟨hr1, hr2, hr3, hr4, hr5⟩ := hr
  refine ⟨?_, ?_, ?_, ?_, ?_⟩
  · rcases validateUpdateField_eq_some ht with hnone | ⟨s, t, _, hc, ho⟩
    · simpa [applyUpdate, hnone] using hr1
    · simpa [applyUpdate, ho] using (checkTitle_eq_some hc).2.1
  · rcases validateUpdateField_eq_some ht with hnone | ⟨s, t, _, hc, ho⟩
    · simpa [applyUpdate, hnone] using hr2
    · simpa [applyUpdate, ho] using (checkTitle_eq_some hc).2.2
  · rcases validateUpdateField_eq_some ha with hnone | ⟨s, t, _, hc, ho⟩
    · simpa [applyUpdate, hnone] using hr3
    · simpa [applyUpdate, ho] using (checkAuthor_eq_some hc).2
  · rcases validateUpdateField_eq_some hd with hnone | ⟨s, t, _, hc, ho⟩
    · simpa [applyUpdate, hnone] using hr4
    · simpa [applyUpdate, ho] using (checkDescription_eq_some hc).2.1
  · rcases validateUpdateField_eq_some hd with hnone | ⟨s, t, _, hc, ho⟩
    · simpa [applyUpdate, hnone] using hr5
    · simpa [applyUpdate, ho] using (checkDescription_eq_some hc).2.2

/-! ## Claim theorems -/

/-- C3: every record in the store satisfies the schema invariant — title,
author and description non-empty after trimming, title at most 100 and
description at most 1000 characters — and the invariant is preserved by
every `POST /blogs` create and every `PUT /blog/id/:id` update. -/
theorem claim_C3_store_invariant (db : Store) (body : Option CreatePayload)
    (ubody : Option UpdatePayload) (id newId : String) (now : Nat)
    (sf sf' : Bool) (h : storeValid db) :
    storeValid (postBlogs body db newId now sf).2 ∧
    storeValid (putBlogById id ubody db now sf').2 := by
  constructor
  · cases body with
    | none => exact h
    | some p =>
      cases hv : validateCreate p with
      | none => simpa [postBlogs, hv] using h
      | some tad =>
        obtain ⟨t, a, d⟩ := tad
        cases sf with
        | true => simpa [postBlogs, hv] using h
        | false =>
          have hrec : validRecord ⟨t, a, d, now, now, 0⟩ :=
            validateCreate_validRecord now hv
          simpa [postBlogs, hv] using
            storeValid_append newId ⟨t, a, d, now, now, 0⟩ h hrec
  · cases hid : isValidObjectId id with
    | false => simpa [putBlogById, hid] using h
    | true =>
      cases ubody with
      | none => simpa [putBlogById, hid] using h
      | some u =>
        cases hie : u.isEmpty with
        | true => simpa [putBlogById, hid, hie] using h
        | false =>
          cases hv : validateUpdate u with
          | none => simpa [putBlogById, hid, hie, hv] using h
          | some u' =>
            cases sf' with
            | true => simpa [putBlogById, hid, hie, hv] using h
            | false =>
              cases hl : Store.lookup db id with
              | none => simpa [putBlogById, hid, hie, hv, hl] using h
              | some r =>
                have hr : validRecord r := h (id, r) (Store.lookup_mem hl)
                have hr' : validRecord (applyUpdate r u' now) :=
                  applyUpdate_validRecord now hr hv
                simpa [putBlogById, hid, hie, hv, hl] using storeValid_set h hr'

/-- Witness for C3 at a concrete create and a concrete update on the
empty store. -/
theorem claim_C3_witness :
    storeValid (postBlogs (some ⟨some "A", some "Bob", some "D"⟩) []
      "bbbbbbbbbbbbbbbbbbbbbbbb" 7 false).2 ∧
    storeValid (putBlogById "aaaaaaaaaaaaaaaaaaaaaaaa"
      (some ⟨some "B2", none, none⟩) [] 5 false).2 :=
  claim_C3_store_invariant [] (some ⟨some "A", some "Bob", some "D"⟩)
    (some ⟨some "B2", none, none⟩) "aaaaaaaaaaaaaaaaaaaaaaaa"
    "bbbbbbbbbbbbbbbbbbbbbbbb" 7 false false
    (fun kv hkv => absurd hkv (List.not_mem_nil kv))

/-- C6: for a payload whose title, author and description are all valid,
`POST /blogs` answers 201 and appends a record whose stored title, author
and description are exactly the trimmed input values. -/
theorem claim_C6_post_creates_trimmed (p : CreatePayload) (ts au de : String)
    (db : Store) (newId : String) (now : Nat)
    (hti : p.title = some ts) (hau : p.author = some au)
    (hde : p.description = some de)
    (h1 : jsTrim ts ≠ "") (h2 : (jsTrim ts).length ≤ 100)
    (h3 : jsTrim au ≠ "") (h4 : jsTrim de ≠ "")
    (h5 : (jsTrim de).length ≤ 1000) :
    postBlogs (some p) db newId now false =
      (Response.created "Blog created successfully"
        ⟨jsTrim ts, jsTrim au, jsTrim de, now, now, 0⟩,
       db ++ [(newId, ⟨jsTrim ts, jsTrim au, jsTrim de, now, now, 0⟩)]) ∧
    (postBlogs (some p) db newId now false).1.status = 201 := by
  have hv : validateCreate p = some (jsTrim ts, jsTrim au, jsTrim de) := by
    unfold validateCreate
    rw [hti, hau, hde]
    unfold checkTitle checkAuthor checkDescription
    simp [h1, h2, h3, h4, h5]
  constructor
  · simp [postBlogs, hv]
  · simp [postBlogs, hv, Response.status]

/-- Witness for C6: creating a blog from a payload with whitespace around
every field stores the trimmed values. -/
theorem claim_C6_witness :
    postBlogs (some ⟨some " A ", some " Bob ", some " D "⟩) [] "ffffffffffffffffffffffff" 3 false =
      (Response.created "Blog created successfully"
        ⟨jsTrim " A ", jsTrim " Bob ", jsTrim " D ", 3, 3, 0⟩,
       [] ++ [("ffffffffffffffffffffffff",
        ⟨jsTrim " A ", jsTrim " Bob ", jsTrim " D ", 3, 3, 0⟩)]) ∧
    (postBlogs (some ⟨some " A ", some " Bob ", some " D "⟩) [] "ffffffffffffffffffffffff" 3 false).1.status = 201 :=
  claim_C6_post_creates_trimmed ⟨some " A ", some " Bob ", some " D "⟩
    " A " " Bob " " D " [] "ffffffffffffffffffffffff" 3 rfl rfl rfl
    (by decide) (by decide) (by decide) (by decide) (by decide)

/-- C7: a `PUT /blog/id/:id` on an existing record whose `data` is absent
or an empty object answers 400 and leaves the store — in particular the
record and its revision counter — entirely unchanged. -/
theorem claim_C7_put_empty_body (id : String) (db : Store) (r : BlogRecord)
    (u : UpdatePayload) (now : Nat) (sf : Bool)
    (hid : isValidObjectId id = true) (_hex : Store.lookup db id = some r)
    (hu : u.isEmpty = true) :
    (putBlogById id none db now sf).1.status = 400 ∧
    (putBlogById id none db now sf).2 = db ∧
    (putBlogById id (some u) db now sf).1.status = 400 ∧
    (putBlogById id (some u) db now sf).2 = db := by
  refine ⟨?_, ?_, ?_, ?_⟩ <;> simp [putBlogById, hid, hu, Response.status]

/-- Witness for C7 on a one-record store, with the empty update object. -/
theorem claim_C7_witness :
    (putBlogById "aaaaaaaaaaaaaaaaaaaaaaaa" none
      [("aaaaaaaaaaaaaaaaaaaaaaaa", ⟨"A", "Bob", "D", 0, 0, 0⟩)] 9 false).1.status = 400 ∧
    (putBlogById "aaaaaaaaaaaaaaaaaaaaaaaa" none
      [("aaaaaaaaaaaaaaaaaaaaaaaa", ⟨"A", "Bob", "D", 0, 0, 0⟩)] 9 false).2 =
      [("aaaaaaaaaaaaaaaaaaaaaaaa", ⟨"A", "Bob", "D", 0, 0, 0⟩)] ∧
    (putBlogById "aaaaaaaaaaaaaaaaaaaaaaaa" (some ⟨none, none, none⟩)
      [("aaaaaaaaaaaaaaaaaaaaaaaa", ⟨"A", "Bob", "D", 0, 0, 0⟩)] 9 false).1.status = 400 ∧
    (putBlogById "aaaaaaaaaaaaaaaaaaaaaaaa" (some ⟨none, none, none⟩)
      [("aaaaaaaaaaaaaaaaaaaaaaaa", ⟨"A", "Bob", "D", 0, 0, 0⟩)] 9 false).2 =
      [("aaaaaaaaaaaaaaaaaaaaaaaa", ⟨"A", "Bob", "D", 0, 0, 0⟩)] :=
  claim_C7_put_empty_body "aaaaaaaaaaaaaaaaaaaaaaaa"
    [("aaaaaaaaaaaaaaaaaaaaaaaa", ⟨"A", "Bob", "D", 0, 0, 0⟩)]
    ⟨"A", "Bob", "D", 0, 0, 0⟩ ⟨none, none, none⟩ 9 false
    (by decide) (by decide) (by decide)

/-- C8: if the initial store connection fails, `startServer` exits with
status 1 — a non-zero code — and never reaches the listening state; the
listening state is only reachable when the connection succeeded. -/
theorem claim_C8_startup (connectOk : Bool) (envPort : Option Nat) :
    (connectOk = false →
      startServer connectOk envPort = ServerState.exited 1 ∧
      ∀ q, startServer connectOk envPort ≠ ServerState.listening q) ∧
    (∀ q, startServer connectOk envPort = ServerState.listening q →
      connectOk = true) := by
  constructor
  · intro hc
    subst hc
    refine ⟨rfl, fun q hq => ?_⟩
    simp [startServer, connectDatabase] at hq
  · intro q hq
    cases connectOk with
    | false => simp [startServer, connectDatabase] at hq
    | true => rfl

/-- Witness for C8: a failed connection with no port configured exits
with code 1 and is not listening on the default port. -/
theorem claim_C8_witness :
    startServer false none = ServerState.exited 1 ∧
    startServer false none ≠ ServerState.listening 3000 :=
  ⟨((claim_C8_startup false none).1 rfl).1,
   ((claim_C8_startup false none).1 rfl).2 3000⟩

/-- C10: the `GET /blog/author` handler never validates the `name` query
parameter and never answers 400 — even for an absent `name` the store
query is issued — so the status is always 200, 404 or 500. -/
theorem claim_C10_author_never_400 (name : Option String) (db : Store)
    (sf : Bool) :
    (getBlogAuthor name db sf).status ≠ 400 ∧
    ((getBlogAuthor name db sf).status = 200 ∨
     (getBlogAuthor name db sf).status = 404 ∨
     (getBlogAuthor name db sf).status = 500) := by
  unfold getBlogAuthor
  split
  · simp [Response.status]
  · split
    · simp [Response.status]
    · rename_i n
      cases he : (sortByCreatedAt
          ((db.map Prod.snd).filter (fun r => regexTestCI n r.author))).isEmpty <;>
        simp [he, Response.status]

/-- C1 counterexample: the record stored under the given id has
last-modified timestamp 0; a PUT supplying only `title` (a non-empty
valid payload) succeeds, yet the post-update document's `updatedAt`
field is 5, not 0 — the schema's `timestamps: true` option makes every
update also rewrite the last-modified timestamp, so a field that was not
supplied in the payload did not keep its value, contrary to the claim. -/
theorem claim_C1_counterexample :
    (putBlogById "aaaaaaaaaaaaaaaaaaaaaaaa" (some ⟨some "B2", none, none⟩)
        [("aaaaaaaaaaaaaaaaaaaaaaaa", ⟨"A", "Bob", "D", 0, 0, 0⟩)] 5 false).1 =
      Response.okBlog "Blog updated successfully" ⟨"B2", "Bob", "D", 0, 5, 1⟩ ∧
    (⟨"B2", "Bob", "D", 0, 5, 1⟩ : BlogRecord).updatedAt ≠
      (⟨"A", "Bob", "D", 0, 0, 0⟩ : BlogRecord).updatedAt :=
  ⟨by decide, by decide⟩

/-- C1 (amended): for every existing record and non-empty valid payload,
PUT overwrites exactly the supplied fields, sets the last-modified
timestamp to the update time, increments the revision counter by exactly
1, keeps every other stored field (and every other record), and returns
the post-update document in the success envelope. -/
theorem claim_C1_put_partial_update (id : String) (db : Store)
    (r : BlogRecord) (u u' : UpdatePayload) (now : Nat)
    (hid : isValidObjectId id = true)
    (hne : u.isEmpty = false)
    (hv : validateUpdate u = some u')
    (hex : Store.lookup db id = some r) :
    putBlogById id (some u) db now false =
      (Response.okBlog "Blog updated successfully" (applyUpdate r u' now),
       Store.set db id (applyUpdate r u' now)) ∧
    (applyUpdate r u' now).v = r.v + 1 ∧
    (applyUpdate r u' now).createdAt = r.createdAt ∧
    (applyUpdate r u' now).updatedAt = now ∧
    (u'.title = none → (applyUpdate r u' now).title = r.title) ∧
    (u'.author = none → (applyUpdate r u' now).author = r.author) ∧
    (u'.description = none → (applyUpdate r u' now).description = r.description) ∧
    (∀ t, u'.title = some t → (applyUpdate r u' now).title = t) ∧
    (∀ a, u'.author = some a → (applyUpdate r u' now).author = a) ∧
    (∀ d, u'.description = some d → (applyUpdate r u' now).description = d) ∧
    Store.lookup (Store.set db id (applyUpdate r u' now)) id =
      some (applyUpdate r u' now) ∧
    (∀ id', id' ≠ id →
      Store.lookup (Store.set db id (applyUpdate r u' now)) id' =
        Store.lookup db id') := by
  refine ⟨?_, rfl, rfl, rfl, ?_, ?_, ?_, ?_, ?_, ?_, ?_, ?_⟩
  · simp [putBlogById, hid, hne, hv, hex]
  · intro h0; simp [applyUpdate, h0]
  · intro h0; simp [applyUpdate, h0]
  · intro h0; simp [applyUpdate, h0]
  · intro t h0; simp [applyUpdate, h0]
  · intro a h0; simp [applyUpdate, h0]
  · intro d h0; simp [applyUpdate, h0]
  · exact Store.lookup_set_self _ hex
  · intro id' h0
    exact Store.lookup_set_ne db id id' _ h0

/-- Witness for C1 (amended): the concrete partial update of the
counterexample, with its full post-update document and store. -/
theorem claim_C1_witness :
    putBlogById "aaaaaaaaaaaaaaaaaaaaaaaa" (some ⟨some "B2", none, none⟩)
        [("aaaaaaaaaaaaaaaaaaaaaaaa", ⟨"A", "Bob", "D", 0, 0, 0⟩)] 5 false =
      (Response.okBlog "Blog updated successfully"
        (applyUpdate ⟨"A", "Bob", "D", 0, 0, 0⟩ ⟨some "B2", none, none⟩ 5),
       Store.set [("aaaaaaaaaaaaaaaaaaaaaaaa", ⟨"A", "Bob", "D", 0, 0, 0⟩)]
         "aaaaaaaaaaaaaaaaaaaaaaaa"
         (applyUpdate ⟨"A", "Bob", "D", 0, 0, 0⟩ ⟨some "B2", none, none⟩ 5)) :=
  (claim_C1_put_partial_update "aaaaaaaaaaaaaaaaaaaaaaaa"
    [("aaaaaaaaaaaaaaaaaaaaaaaa", ⟨"A", "Bob", "D", 0, 0, 0⟩)]
    ⟨"A", "Bob", "D", 0, 0, 0⟩ ⟨some "B2", none, none⟩ ⟨some "B2", none, none⟩ 5
    (by decide) (by decide) (by decide) (by decide)).1

/-- C2 counterexample: a POST /blogs whose payload is fully valid but
whose save is hit by a store failure answers 400, not a 500-equivalent —
the handler's single catch maps every save error, store failures
included, to status 400. -/
theorem claim_C2_counterexample :
    (postBlogs (some ⟨some "A", some "Bob", some "D"⟩) []
        "cccccccccccccccccccccccc" 0 true).1 = Response.badRequest "StoreError" ∧
    (postBlogs (some ⟨some "A", some "Bob", some "D"⟩) []
        "cccccccccccccccccccccccc" 0 true).1.status = 400 :=
  ⟨by decide, by decide⟩

/-- C2 (amended): a lookup matching no record yields the distinguishable
NotFound outcome mapped to 404 in the GET/PUT/DELETE by-id handlers, and
a store failure is mapped to 500 by the list, by-id read, update, delete
and author handlers — but POST /blogs maps every failure raised during
the save, a store failure included, to 400. -/
theorem claim_C2_error_mapping (id n newId : String) (db : Store)
    (u u' : UpdatePayload) (p : CreatePayload) (t a d : String) (now : Nat)
    (hid : isValidObjectId id = true)
    (hmiss : Store.lookup db id = none)
    (hne : u.isEmpty = false)
    (hu : validateUpdate u = some u')
    (hp : validateCreate p = some (t, a, d)) :
    (getBlogs db true).status = 500 ∧
    (getBlogById id db true).status = 500 ∧
    (putBlogById id (some u) db now true).1.status = 500 ∧
    (deleteBlogById id db true).1.status = 500 ∧
    (getBlogAuthor (some n) db true).status = 500 ∧
    (getBlogById id db false).status = 404 ∧
    (putBlogById id (some u) db now false).1.status = 404 ∧
    (deleteBlogById id db false).1.status = 404 ∧
    (postBlogs (some p) db newId now true).1.status = 400 := by
  refine ⟨?_, ?_, ?_, ?_, ?_, ?_, ?_, ?_, ?_⟩ <;>
    simp [getBlogs, getBlogById, putBlogById, deleteBlogById, getBlogAuthor,
      postBlogs, hid, hmiss, hne, hu, hp, Response.status]

/-- Witness for C2 (amended) on the empty store with concrete valid
update and create payloads. -/
theorem claim_C2_witness :
    (getBlogs [] true).status = 500 ∧
    (getBlogById "aaaaaaaaaaaaaaaaaaaaaaaa" [] true).status = 500 ∧
    (putBlogById "aaaaaaaaaaaaaaaaaaaaaaaa" (some ⟨some "B2", none, none⟩)
      [] 0 true).1.status = 500 ∧
    (deleteBlogById "aaaaaaaaaaaaaaaaaaaaaaaa" [] true).1.status = 500 ∧
    (getBlogAuthor (some "jo") [] true).status = 500 ∧
    (getBlogById "aaaaaaaaaaaaaaaaaaaaaaaa" [] false).status = 404 ∧
    (putBlogById "aaaaaaaaaaaaaaaaaaaaaaaa" (some ⟨some "B2", none, none⟩)
      [] 0 false).1.status = 404 ∧
    (deleteBlogById "aaaaaaaaaaaaaaaaaaaaaaaa" [] false).1.status = 404 ∧
    (postBlogs (some ⟨some "A", some "Bob", some "D"⟩) []
      "cccccccccccccccccccccccc" 0 true).1.status = 400 :=
  claim_C2_error_mapping "aaaaaaaaaaaaaaaaaaaaaaaa" "jo"
    "cccccccccccccccccccccccc" [] ⟨some "B2", none, none⟩
    ⟨some "B2", none, none⟩ ⟨some "A", some "Bob", some "D"⟩ "A" "Bob" "D" 0
    (by decide) (by decide) (by decide) (by decide) (by decide)

/-- C4 counterexample: a PUT whose id is well-formed and matches no
record, but whose update object is empty, answers 400 — the empty-body
check precedes the existence check — while the claim demands 404 for
every request with a well-formed unmatched id. -/
theorem claim_C4_counterexample :
    isValidObjectId "aaaaaaaaaaaaaaaaaaaaaaaa" = true ∧
    Store.lookup [] "aaaaaaaaaaaaaaaaaaaaaaaa" = none ∧
    (putBlogById "aaaaaaaaaaaaaaaaaaaaaaaa" (some ⟨none, none, none⟩)
      [] 0 false).1.status = 400 ∧
    (putBlogById "aaaaaaaaaaaaaaaaaaaaaaaa" (some ⟨none, none, none⟩)
      [] 0 false).1.status ≠ 404 :=
  ⟨by decide, by decide, by decide, by decide⟩

/-- C4 (amended): on GET, PUT and DELETE of /blog/id/:id a malformed id
answers 400 and leaves the store unmodified; a well-formed id matching no
record answers 404 (leaving the store unmodified) provided the request
passes the handler's earlier payload checks — for PUT, a non-empty valid
update body — and the store itself does not fail. -/
theorem claim_C4_id_validation (idBad idMiss : String) (db : Store)
    (body : Option UpdatePayload) (u u' : UpdatePayload) (now : Nat) (sf : Bool)
    (h1 : isValidObjectId idBad = false)
    (h2 : isValidObjectId idMiss = true)
    (h3 : Store.lookup db idMiss = none)
    (h4 : u.isEmpty = false)
    (h5 : validateUpdate u = some u') :
    (getBlogById idBad db sf).status = 400 ∧
    (putBlogById idBad body db now sf).1.status = 400 ∧
    (putBlogById idBad body db now sf).2 = db ∧
    (deleteBlogById idBad db sf).1.status = 400 ∧
    (deleteBlogById idBad db sf).2 = db ∧
    (getBlogById idMiss db false).status = 404 ∧
    (putBlogById idMiss (some u) db now false).1.status = 404 ∧
    (putBlogById idMiss (some u) db now false).2 = db ∧
    (deleteBlogById idMiss db false).1.status = 404 ∧
    (deleteBlogById idMiss db false).2 = db := by
  refine ⟨?_, ?_, ?_, ?_, ?_, ?_, ?_, ?_, ?_, ?_⟩ <;>
    simp [getBlogById, putBlogById, deleteBlogById, h1, h2, h3, h4, h5,
      Response.status]

/-- Witness for C4 (amended): a three-character id is malformed, a
24-hex-character id is well-formed and absent from the empty store. -/
theorem claim_C4_witness :
    (getBlogById "xyz" [] true).status = 400 ∧
    (putBlogById "xyz" none [] 0 true).1.status = 400 ∧
    (putBlogById "xyz" none [] 0 true).2 = [] ∧
    (deleteBlogById "xyz" [] true).1.status = 400 ∧
    (deleteBlogById "xyz" [] true).2 = [] ∧
    (getBlogById "aaaaaaaaaaaaaaaaaaaaaaaa" [] false).status = 404 ∧
    (putBlogById "aaaaaaaaaaaaaaaaaaaaaaaa" (some ⟨some "B2", none, none⟩)
      [] 0 false).1.status = 404 ∧
    (putBlogById "aaaaaaaaaaaaaaaaaaaaaaaa" (some ⟨some "B2", none, none⟩)
      [] 0 false).2 = [] ∧
    (deleteBlogById "aaaaaaaaaaaaaaaaaaaaaaaa" [] false).1.status = 404 ∧
    (deleteBlogById "aaaaaaaaaaaaaaaaaaaaaaaa" [] false).2 = [] :=
  claim_C4_id_validation "xyz" "aaaaaaaaaaaaaaaaaaaaaaaa" [] none
    ⟨some "B2", none, none⟩ ⟨some "B2", none, none⟩ 0 true
    (by decide) (by decide) (by decide) (by decide) (by decide)

/-- C5 counterexample: with the single stored author "X" and the query
name ".", the handler returns that record — the name is interpreted as a
regular-expression pattern, and "." matches any character — although "."
is not a case-insensitive substring of "X", contrary to the claim's
universally quantified substring semantics. -/
theorem claim_C5_counterexample :
    getBlogAuthor (some ".")
        [("dddddddddddddddddddddddd", ⟨"T", "X", "D", 0, 0, 0⟩)] false =
      Response.okBlogs "Blogs successfully retrieved by author" 1
        [⟨"T", "X", "D", 0, 0, 0⟩] ∧
    ciContains "." "X" = false :=
  ⟨by decide, by decide⟩

/-- C5 (amended): for every query name free of regex metacharacters, the
author search returns exactly the records whose author contains the name
as a case-insensitive substring (sorted by ascending creation time), and
404 when no record matches; a name containing metacharacters is instead
interpreted as a regular-expression pattern. -/
theorem claim_C5_author_substring (n : String) (db : Store)
    (h : noRegexMeta n = true) :
    getBlogAuthor (some n) db false =
      (if (sortByCreatedAt
            ((db.map Prod.snd).filter (fun r => ciContains n r.author))).isEmpty
       then Response.notFound "Blog not found"
       else Response.okBlogs "Blogs successfully retrieved by author"
         (sortByCreatedAt
           ((db.map Prod.snd).filter (fun r => ciContains n r.author))).length
         (sortByCreatedAt
           ((db.map Prod.snd).filter (fun r => ciContains n r.author)))) := by
  have hf : (db.map Prod.snd).filter (fun r => regexTestCI n r.author) =
      (db.map Prod.snd).filter (fun r => ciContains n r.author) :=
    List.filter_congr (fun r _ => regexTestCI_eq_ciContains h r.author)
  simp only [getBlogAuthor, hf]
  rfl

/-- Witness for C5 (amended): the meta-free name "jo" against a store
holding authors "John", "Joanna" and "Bob" returns exactly the two
substring matches. -/
theorem claim_C5_witness :
    noRegexMeta "jo" = true ∧
    getBlogAuthor (some "jo")
        [("e1e1e1e1e1e1e1e1e1e1e1e1", ⟨"T", "John", "D", 0, 0, 0⟩),
         ("e2e2e2e2e2e2e2e2e2e2e2e2", ⟨"T", "Joanna", "D", 1, 1, 0⟩),
         ("e3e3e3e3e3e3e3e3e3e3e3e3", ⟨"T", "Bob", "D", 2, 2, 0⟩)] false =
      (if (sortByCreatedAt
            (([⟨"T", "John", "D", 0, 0, 0⟩, ⟨"T", "Joanna", "D", 1, 1, 0⟩,
               (⟨"T", "Bob", "D", 2, 2, 0⟩ : BlogRecord)]).filter
              (fun r => ciContains "jo" r.author))).isEmpty
       then Response.notFound "Blog not found"
       else Response.okBlogs "Blogs successfully retrieved by author"
         (sortByCreatedAt
           (([⟨"T", "John", "D", 0, 0, 0⟩, ⟨"T", "Joanna", "D", 1, 1, 0⟩,
              (⟨"T", "Bob", "D", 2, 2, 0⟩ : BlogRecord)]).filter
             (fun r => ciContains "jo" r.author))).length
         (sortByCreatedAt
           (([⟨"T", "John", "D", 0, 0, 0⟩, ⟨"T", "Joanna", "D", 1, 1, 0⟩,
              (⟨"T", "Bob", "D", 2, 2, 0⟩ : BlogRecord)]).filter
             (fun r => ciContains "jo" r.author)))) :=
  ⟨by decide, claim_C5_author_substring "jo"
    [("e1e1e1e1e1e1e1e1e1e1e1e1", ⟨"T", "John", "D", 0, 0, 0⟩),
     ("e2e2e2e2e2e2e2e2e2e2e2e2", ⟨"T", "Joanna", "D", 1, 1, 0⟩),
     ("e3e3e3e3e3e3e3e3e3e3e3e3", ⟨"T", "Bob", "D", 2, 2, 0⟩)] (by decide)⟩

/-- C9 counterexample: with a successful connection and no port setting,
`startServer` reaches the listening state on port 3000 — the handler's
own `PORT || 3000` default — so the service does bind a listen address of
its own choosing, contrary to the claim. -/
theorem claim_C9_counterexample :
    startServer true none = ServerState.listening 3000 := by
  rfl

/-- C9 (amended): when the port environment setting is absent, startup is
tolerated and the server listens on the default port 3000; when it is
present the server listens on the configured port. -/
theorem claim_C9_default_port (envPort : Option Nat) :
    startServer true envPort = ServerState.listening (envPort.getD 3000) := by
  rfl

end BlogBackend
